import Mathlib

/-!
Verification development for the dra-multi-things DRA driver.

The Go sources are shallowly embedded: Go maps become association lists
whose insert erases the key first (so keys stay distinct and lookup sees
the latest write, exactly like a Go map), fallible Go functions return
Except String, and OS-level side effects (netlink calls, file writes)
are abstracted behind outcome functions supplied as parameters.  Handler
invocations are observed through explicit call counters and event
traces, mirroring how the repository's own tests observe them
(prepareCalled / unprepareCalled fields of the test fakes).
-/

/-- Lookup in an association list modelling a Go map: the first binding
for the key (inserts keep at most one binding per key). -/
def mapLookup {κ α : Type} [DecidableEq κ] (k : κ) : List (κ × α) → Option α
  | [] => none
  | (k', v) :: rest => if k' = k then some v else mapLookup k rest

/-- Deleting a key from a Go map: every binding for the key is removed. -/
def mapErase {κ α : Type} [DecidableEq κ] (k : κ) (m : List (κ × α)) : List (κ × α) :=
  m.filter (fun p => decide (p.1 ≠ k))

/-- Go map assignment m[k] = v: the key is rebound, old bindings dropped. -/
def mapInsert {κ α : Type} [DecidableEq κ] (k : κ) (v : α) (m : List (κ × α)) : List (κ × α) :=
  (k, v) :: mapErase k m

/-- DeviceType from pkg/handler/types.go. -/
inductive DeviceType : Type
  | netdev
  | rdma
  | combo
deriving DecidableEq, Repr

/-- The string value of each DeviceType constant. -/
def DeviceType.str : DeviceType → String
  | .netdev => "netdev"
  | .rdma => "rdma"
  | .combo => "combo"

/-- AllocationInfo from pkg/handler/types.go.  Metadata is Go's
map[string]string; a missing key reads as "" (Go zero value). -/
structure AllocationInfo : Type where
  type : DeviceType
  kind : String
  claimUID : String
  deviceName : String
  metadata : List (String × String)
deriving DecidableEq, Repr

/-- Go read m[k] on a map[string]string: zero value "" when absent. -/
def metaGet (m : List (String × String)) (k : String) : String :=
  (mapLookup k m).getD ""

/-- NetdevConfig from pkg/handler/types.go (fields omitted in a Go
literal default to their zero values). -/
structure NetdevConfig : Type where
  kind : String
  interfaceName : String := ""
  mtu : Int := 0
  parent : String := ""
  mode : String := ""
  vfIndex : Int := 0
  hostDevice : String := ""
  pkey : Int := 0
deriving DecidableEq, Repr

/-- RDMAConfig from pkg/handler/types.go. -/
structure RDMAConfig : Type where
  preferDevice : String := ""
deriving DecidableEq, Repr

/-- ComboConfig from pkg/handler/types.go. -/
structure ComboConfig : Type where
  rdma : RDMAConfig
  netdev : NetdevConfig
deriving DecidableEq, Repr

/-- DeviceConfig from pkg/handler/types.go: a type tag plus optional
per-type payloads (Go nil pointers become none). -/
structure DeviceConfig : Type where
  type : DeviceType
  netdev : Option NetdevConfig := none
  rdma : Option RDMAConfig := none
  combo : Option ComboConfig := none
deriving DecidableEq, Repr

/-- DeviceConfig.GetKind from pkg/handler/types.go. -/
def DeviceConfig.getKind (c : DeviceConfig) : String :=
  match c.type with
  | .netdev =>
    match c.netdev with
    | some n => n.kind
    | none => ""
  | .rdma => "uverbs"
  | .combo => "roce"

/-- CDI ContainerEdits, reduced to the four lists the code appends; the
elements themselves are opaque labels (their structure is never
inspected by the orchestration code under verification). -/
structure CDIEdits : Type where
  deviceNodes : List String := []
  mounts : List String := []
  netDevices : List (String × String) := []
  env : List String := []
deriving DecidableEq, Repr

/-- mergeCDIEdits from pkg/handler/combo/roce.go. -/
def mergeCDIEdits (a b : CDIEdits) : CDIEdits :=
  { deviceNodes := a.deviceNodes ++ b.deviceNodes
    mounts := a.mounts ++ b.mounts
    netDevices := a.netDevices ++ b.netDevices
    env := a.env ++ b.env }

/-- PrepareRequest from pkg/handler/types.go (Namespace is rendered
nspace because the Go field name is a Lean keyword). -/
structure PrepareRequest : Type where
  claimUID : String
  nspace : String := ""
  claimName : String := ""
  allocatedDevice : String := ""
  config : DeviceConfig
deriving DecidableEq, Repr

/-- PrepareResult from pkg/handler/types.go. -/
structure PrepareResult : Type where
  poolName : String
  deviceName : String
  cdiEdits : CDIEdits
  allocation : AllocationInfo
deriving DecidableEq, Repr

/-- UnprepareRequest from pkg/handler/types.go. -/
structure UnprepareRequest : Type where
  claimUID : String
  allocation : AllocationInfo
deriving DecidableEq, Repr

/-- The outcome functions of one DeviceHandler: what Validate, Prepare
and Unprepare return for each input, with the OS effects abstracted. -/
structure HandlerSpec : Type where
  validateFn : DeviceConfig → Except String Unit
  prepareFn : PrepareRequest → Except String PrepareResult
  unprepareFn : UnprepareRequest → Except String Unit

/-- A DeviceHandler as seen by the registry: its declared type, its
declared kind list, and its behaviour. -/
structure RegisteredHandler : Type where
  type : DeviceType
  kinds : List String
  spec : HandlerSpec

/-- HandlerRegistry from pkg/handler/registry.go: type → kind → handler,
each level a Go map. -/
structure HandlerRegistry : Type where
  handlers : List (DeviceType × List (String × RegisteredHandler))

/-- NewHandlerRegistry from pkg/handler/registry.go. -/
def HandlerRegistry.new : HandlerRegistry := ⟨[]⟩

/-- Register from pkg/handler/registry.go: for each declared kind, set
handlers[typ][kind] = h (creating the inner map when absent). -/
def HandlerRegistry.Register (r : HandlerRegistry) (h : RegisteredHandler) : HandlerRegistry :=
  let inner := (mapLookup h.type r.handlers).getD []
  let inner2 := h.kinds.foldl (fun m kind => mapInsert kind h m) inner
  ⟨mapInsert h.type inner2 r.handlers⟩

/-- Get from pkg/handler/registry.go: nil (none) when either level
misses. -/
def HandlerRegistry.Get (r : HandlerRegistry) (typ : DeviceType) (kind : String) :
    Option RegisteredHandler :=
  match mapLookup typ r.handlers with
  | some inner => mapLookup kind inner
  | none => none

/-- The NotFound message MustGet formats. -/
def notFoundMsg (typ : DeviceType) (kind : String) : String :=
  "no handler registered for type=" ++ typ.str ++ " kind=" ++ kind

/-- MustGet from pkg/handler/registry.go. -/
def HandlerRegistry.MustGet (r : HandlerRegistry) (typ : DeviceType) (kind : String) :
    Except String RegisteredHandler :=
  match r.Get typ kind with
  | some h => .ok h
  | none => .error (notFoundMsg typ kind)

/-- A whole startup sequence of Register calls, first to last. -/
def HandlerRegistry.registerAll (hs : List RegisteredHandler) : HandlerRegistry :=
  hs.foldl HandlerRegistry.Register HandlerRegistry.new

/-- Spec-side definition (from the spec words, for comparison with the
source translation): the LAST handler in the registration sequence that
declares the queried (type, kind) pair, if any. -/
def lastRegistered (hs : List RegisteredHandler) (typ : DeviceType) (kind : String) :
    Option RegisteredHandler :=
  match hs with
  | [] => none
  | h :: rest =>
    match lastRegistered rest typ kind with
    | some x => some x
    | none => if h.type = typ ∧ kind ∈ h.kinds then some h else none

/-- One side of the combo handler, as the combo code sees it: the
outcome of each Prepare / Unprepare invocation. -/
structure SubHandler : Type where
  prepare : PrepareRequest → Except String PrepareResult
  unprepare : UnprepareRequest → Except String Unit

/-- Invocation counters for one sub-handler, observed the same way the
repository's tests observe their fakes. -/
structure CallCounts : Type where
  prepares : Nat := 0
  unprepares : Nat := 0
deriving DecidableEq, Repr

/-- Zero counters. -/
def CallCounts.zero : CallCounts := {}

/-- Invoke a sub-handler's Prepare, counting the call. -/
def SubHandler.callPrepare (h : SubHandler) (c : CallCounts) (req : PrepareRequest) :
    Except String PrepareResult × CallCounts :=
  (h.prepare req, { c with prepares := c.prepares + 1 })

/-- Invoke a sub-handler's Unprepare, counting the call. -/
def SubHandler.callUnprepare (h : SubHandler) (c : CallCounts) (req : UnprepareRequest) :
    Except String Unit × CallCounts :=
  (h.unprepare req, { c with unprepares := c.unprepares + 1 })

/-- RoCEHandler from pkg/handler/combo/roce.go. -/
structure RoCEHandler : Type where
  rdmaHandler : SubHandler
  netdevHandler : SubHandler

/-- RoCEHandler.Validate from pkg/handler/combo/roce.go. -/
def RoCEHandler.Validate (_ : RoCEHandler) (cfg : DeviceConfig) : Except String Unit :=
  match cfg.combo with
  | none => .error "combo config is required for roce"
  | some _ => .ok ()

/-- The sub-request the combo Prepare builds for the RDMA side (roce.go
lines 44-50): the scheduler's AllocatedDevice hint is forwarded. -/
def rdmaSubReq (req : PrepareRequest) (cfg : ComboConfig) : PrepareRequest :=
  { claimUID := req.claimUID
    nspace := req.nspace
    claimName := req.claimName
    allocatedDevice := req.allocatedDevice
    config := { type := .rdma, rdma := some cfg.rdma } }

/-- The sub-request the combo Prepare builds for the netdev side
(roce.go lines 57-62): no AllocatedDevice hint. -/
def netdevSubReq (req : PrepareRequest) (cfg : ComboConfig) : PrepareRequest :=
  { claimUID := req.claimUID
    nspace := req.nspace
    claimName := req.claimName
    config := { type := .netdev, netdev := some cfg.netdev } }

/-- RoCEHandler.Prepare from pkg/handler/combo/roce.go, with the two
sub-handlers' call counters made explicit (rdma counts first, then
netdev counts).  Note the combined AllocationInfo literal in the source
omits DeviceName, so it carries the Go zero value "". -/
def RoCEHandler.Prepare (h : RoCEHandler) (req : PrepareRequest) :
    Except String PrepareResult × CallCounts × CallCounts :=
  match req.config.combo with
  | none => (.error "combo config is required for roce", CallCounts.zero, CallCounts.zero)
  | some cfg =>
    let (r1, rc1) := h.rdmaHandler.callPrepare CallCounts.zero (rdmaSubReq req cfg)
    match r1 with
    | .error e => (.error ("rdma prepare failed: " ++ e), rc1, CallCounts.zero)
    | .ok rdmaResult =>
      let (r2, nc1) := h.netdevHandler.callPrepare CallCounts.zero (netdevSubReq req cfg)
      match r2 with
      | .error e =>
        let (_, rc2) := h.rdmaHandler.callUnprepare rc1
          { claimUID := req.claimUID, allocation := rdmaResult.allocation }
        (.error ("netdev prepare failed: " ++ e), rc2, nc1)
      | .ok netResult =>
        (.ok
          { poolName := rdmaResult.poolName
            deviceName := rdmaResult.deviceName
            cdiEdits := mergeCDIEdits rdmaResult.cdiEdits netResult.cdiEdits
            allocation :=
              { type := .combo
                kind := "roce"
                claimUID := req.claimUID
                deviceName := ""
                metadata :=
                  [("rdma_device", rdmaResult.deviceName),
                   ("net_interface", netResult.deviceName),
                   ("rdma_uverbs_device", metaGet rdmaResult.allocation.metadata "uverbsDevice"),
                   ("rdma_ibdev", metaGet rdmaResult.allocation.metadata "ibdev"),
                   ("net_created", metaGet netResult.allocation.metadata "createdInterface"),
                   ("net_host_end", metaGet netResult.allocation.metadata "hostEnd")] } },
         rc1, nc1)

/-- The synthetic netdev sub-allocation the combo Unprepare rebuilds
(roce.go lines 104-112). -/
def netdevReconstructedAlloc (req : UnprepareRequest) : AllocationInfo :=
  { type := .netdev
    kind := "dummy"
    claimUID := req.claimUID
    deviceName := ""
    metadata :=
      [("createdInterface", metaGet req.allocation.metadata "net_created"),
       ("hostEnd", metaGet req.allocation.metadata "net_host_end")] }

/-- The synthetic RDMA sub-allocation the combo Unprepare rebuilds
(roce.go lines 121-129). -/
def rdmaReconstructedAlloc (req : UnprepareRequest) : AllocationInfo :=
  { type := .rdma
    kind := "uverbs"
    claimUID := req.claimUID
    deviceName := ""
    metadata :=
      [("uverbsDevice", metaGet req.allocation.metadata "rdma_uverbs_device"),
       ("ibdev", metaGet req.allocation.metadata "rdma_ibdev")] }

/-- The aggregate error message of roce.go line 138. -/
def roceUnprepareErrMsg (errs : List String) : String :=
  "roce unprepare errors: " ++ String.intercalate "; " errs

/-- RoCEHandler.Unprepare from pkg/handler/combo/roce.go: netdev side
first, then RDMA side, errors collected and aggregated.  Returned
counters: rdma counts first, then netdev counts. -/
def RoCEHandler.Unprepare (h : RoCEHandler) (req : UnprepareRequest) :
    Except String Unit × CallCounts × CallCounts :=
  let (n, nc) := h.netdevHandler.callUnprepare CallCounts.zero
    { claimUID := req.claimUID, allocation := netdevReconstructedAlloc req }
  let errs1 : List String :=
    match n with
    | .error e => ["netdev unprepare: " ++ e]
    | .ok _ => []
  let (r, rc) := h.rdmaHandler.callUnprepare CallCounts.zero
    { claimUID := req.claimUID, allocation := rdmaReconstructedAlloc req }
  let errs : List String :=
    errs1 ++
      match r with
      | .error e => ["rdma unprepare: " ++ e]
      | .ok _ => []
  (if errs.isEmpty then .ok () else .error (roceUnprepareErrMsg errs), rc, nc)

/-- PendingMove from pkg/nri/tracker.go. -/
structure PendingMove : Type where
  ibDev : String
  claimUID : String
deriving DecidableEq, Repr

/-- ActiveMove from pkg/nri/tracker.go. -/
structure ActiveMove : Type where
  ibDev : String
  podUID : String
  netnsPath : String
deriving DecidableEq, Repr

/-- RDMANetnsTracker from pkg/nri/tracker.go: two claimUID-keyed Go
maps (the mutex serialises each operation; here each operation is one
pure transition). -/
structure RDMANetnsTracker : Type where
  pending : List (String × PendingMove)
  active : List (String × ActiveMove)
deriving DecidableEq, Repr

/-- NewRDMANetnsTracker from pkg/nri/tracker.go. -/
def RDMANetnsTracker.new : RDMANetnsTracker := ⟨[], []⟩

/-- AddPending from pkg/nri/tracker.go. -/
def RDMANetnsTracker.AddPending (t : RDMANetnsTracker) (claimUID ibDev : String) :
    RDMANetnsTracker :=
  { t with pending := mapInsert claimUID { ibDev := ibDev, claimUID := claimUID } t.pending }

/-- RemovePending from pkg/nri/tracker.go. -/
def RDMANetnsTracker.RemovePending (t : RDMANetnsTracker) (claimUID : String) :
    RDMANetnsTracker :=
  { t with pending := mapErase claimUID t.pending }

/-- One iteration of the ConsumePendingForClaims loop: collect and
delete the pending move for one queried UID, when present. -/
def consumeStep (acc : List PendingMove × List (String × PendingMove)) (uid : String) :
    List PendingMove × List (String × PendingMove) :=
  match mapLookup uid acc.2 with
  | some m => (acc.1 ++ [m], mapErase uid acc.2)
  | none => acc

/-- ConsumePendingForClaims from pkg/nri/tracker.go: walk the given UID
list, collecting and deleting each match. -/
def RDMANetnsTracker.ConsumePendingForClaims (t : RDMANetnsTracker) (claimUIDs : List String) :
    List PendingMove × RDMANetnsTracker :=
  let r := claimUIDs.foldl consumeStep ([], t.pending)
  (r.1, { t with pending := r.2 })

/-- MarkActive from pkg/nri/tracker.go. -/
def RDMANetnsTracker.MarkActive (t : RDMANetnsTracker)
    (claimUID podUID ibDev netnsPath : String) : RDMANetnsTracker :=
  { t with active :=
      mapInsert claimUID { ibDev := ibDev, podUID := podUID, netnsPath := netnsPath } t.active }

/-- GetActiveForPod from pkg/nri/tracker.go. -/
def RDMANetnsTracker.GetActiveForPod (t : RDMANetnsTracker) (podUID : String) :
    List ActiveMove :=
  (t.active.filter (fun p => p.2.podUID == podUID)).map (fun p => p.2)

/-- RemoveActive from pkg/nri/tracker.go: returns the removed move when
one existed. -/
def RDMANetnsTracker.RemoveActive (t : RDMANetnsTracker) (claimUID : String) :
    Option ActiveMove × RDMANetnsTracker :=
  (mapLookup claimUID t.active, { t with active := mapErase claimUID t.active })

/-- RemoveActiveForPod from pkg/nri/tracker.go: drains every active
move whose podUID matches. -/
def RDMANetnsTracker.RemoveActiveForPod (t : RDMANetnsTracker) (podUID : String) :
    List ActiveMove × RDMANetnsTracker :=
  ((t.active.filter (fun p => p.2.podUID == podUID)).map (fun p => p.2),
   { t with active := t.active.filter (fun p => !(p.2.podUID == podUID)) })

/-- Outcomes of the kernel-facing calls RunPodSandbox makes (netns and
netlink); handles and links are opaque tokens. -/
structure NetEnv : Type where
  getNSFromPath : String → Except String Nat
  rdmaLinkByName : String → Except String String
  rdmaLinkSetNsFd : String → Nat → Except String Unit

/-- A pod sandbox as RunPodSandbox consumes it.  claimUIDs is the
output of extractClaimUIDs over the pod annotations, and netnsPath the
output of getNetNSPath ("" when the sandbox exposes no network
namespace), both computed at the NRI boundary. -/
structure PodSandbox : Type where
  podUID : String
  claimUIDs : List String
  netnsPath : String
deriving DecidableEq, Repr

/-- The per-move body of the RunPodSandbox loop (part_001 lines
111-125): resolve the RDMA link, reassign it into the pod namespace,
and only on joint success record the move as active.  Either failure is
logged and the loop continues — the tracker is left untouched for that
move. -/
def runMoveStep (env : NetEnv) (pod : PodSandbox) (podNS : Nat)
    (tr : RDMANetnsTracker) (m : PendingMove) : RDMANetnsTracker :=
  match env.rdmaLinkByName m.ibDev with
  | .error _ => tr
  | .ok link =>
    match env.rdmaLinkSetNsFd link podNS with
    | .error _ => tr
    | .ok _ => tr.MarkActive m.claimUID pod.podUID m.ibDev pod.netnsPath

/-- Plugin.RunPodSandbox from the nri package (part_001 lines 67-128):
drain the pending moves for this pod's claims; without a usable pod
namespace re-register them all; otherwise run the per-move loop. -/
def RunPodSandbox (env : NetEnv) (t : RDMANetnsTracker) (pod : PodSandbox) :
    Except String Unit × RDMANetnsTracker :=
  if pod.claimUIDs.isEmpty then (.ok (), t)
  else
    let r := t.ConsumePendingForClaims pod.claimUIDs
    let moves := r.1
    let t1 := r.2
    if moves.isEmpty then (.ok (), t1)
    else if pod.netnsPath = "" then
      (.ok (), moves.foldl (fun tr m => tr.AddPending m.claimUID m.ibDev) t1)
    else
      match env.getNSFromPath pod.netnsPath with
      | .error e =>
        (.error ("get pod netns: " ++ e),
         moves.foldl (fun tr m => tr.AddPending m.claimUID m.ibDev) t1)
      | .ok podNS =>
        (.ok (), moves.foldl (runMoveStep env pod podNS) t1)

/-- An invocation of a handler as observed at the driver layer:
which claim, which (type, kind), and which method. -/
inductive CallEvent : Type
  | validate (claimUID : String) (typ : DeviceType) (kind : String)
  | prepareCall (claimUID : String) (typ : DeviceType) (kind : String)
  | unprepareCall (claimUID : String) (typ : DeviceType) (kind : String)
deriving DecidableEq, Repr

/-- Go claimUID[:8]: string slicing panics (modelled as none) when the
string holds fewer than 8 characters (claim UIDs are ASCII, so Go's
byte count and the character count agree). -/
def goSlice8 (s : String) : Option String :=
  if s.length < 8 then none else some (s.take 8)

/-- cdiFilePrefix from pkg/driver/driver.go, with the Go slice panic
surfaced as none. -/
def cdiFilePrefixOf (driverName claimUID : String) : Option String :=
  (goSlice8 claimUID).map (fun p => (driverName.replace "/" "-") ++ "-" ++ p)

/-- The defined value of cdiFilePrefix (total form used by the driver
state model; it agrees with cdiFilePrefixOf whenever the UID is at
least 8 characters, the regime in which the Go code does not panic). -/
def cdiFilePrefixT (driverName claimUID : String) : String :=
  (driverName.replace "/" "-") ++ "-" ++ claimUID.take 8

/-- The CDI device identifier of driver.go lines 65 and 295. -/
def cdiDeviceID (driverName : String) (typ : DeviceType) (deviceName : String) : String :=
  driverName ++ "/" ++ typ.str ++ "=" ++ deviceName

/-- Driver from pkg/driver/driver.go: name, registry (the in-memory
allocations map lives in DriverState). -/
structure Driver : Type where
  driverName : String
  registry : HandlerRegistry

/-- The driver-visible world state: the in-memory allocations map plus
the durable artifacts (CDI spec files and allocation sidecar files,
both keyed by their deterministic file prefix).  File writes are
modelled as reliable; driver.go treats sidecar-write failure as a
logged warning only, and no claim under verification concerns write
failures. -/
structure DriverState : Type where
  allocations : List (String × AllocationInfo)
  allocFiles : List (String × AllocationInfo)
  cdiFiles : List String
deriving DecidableEq, Repr

/-- saveAllocation from driver.go: write the sidecar file (overwrite). -/
def Driver.saveAllocation (d : Driver) (claimUID : String) (alloc : AllocationInfo)
    (st : DriverState) : DriverState :=
  { st with allocFiles := mapInsert (cdiFilePrefixT d.driverName claimUID) alloc st.allocFiles }

/-- removeAllocationState from driver.go. -/
def Driver.removeAllocationState (d : Driver) (claimUID : String) (st : DriverState) :
    DriverState :=
  { st with allocFiles := mapErase (cdiFilePrefixT d.driverName claimUID) st.allocFiles }

/-- createCDISpec from driver.go: write the CDI spec file, save the
sidecar, and return the CDI device identifier. -/
def Driver.createCDISpec (d : Driver) (claimUID : String) (result : PrepareResult)
    (st : DriverState) : String × DriverState :=
  let pre := cdiFilePrefixT d.driverName claimUID
  let st1 := { st with cdiFiles := pre :: st.cdiFiles.filter (fun q => decide (q ≠ pre)) }
  let st2 := d.saveAllocation claimUID result.allocation st1
  (cdiDeviceID d.driverName result.allocation.type result.deviceName, st2)

/-- deleteCDISpec from driver.go: remove the CDI spec file and the
sidecar. -/
def Driver.deleteCDISpec (d : Driver) (claimUID : String) (st : DriverState) : DriverState :=
  let pre := cdiFilePrefixT d.driverName claimUID
  d.removeAllocationState claimUID { st with cdiFiles := st.cdiFiles.filter (fun q => decide (q ≠ pre)) }

/-- restoreAllocations from driver.go: fold every persisted sidecar
into the in-memory map, skipping entries with an empty claim UID. -/
def Driver.restoreAllocations (st : DriverState) : DriverState :=
  let restored := st.allocFiles.foldl
    (fun m p => if p.2.claimUID = "" then m else mapInsert p.2.claimUID p.2 m)
    st.allocations
  { st with allocations := restored }

/-- A ResourceClaim as the driver consumes it: UID, diagnostics names,
the DeviceConfig produced by parseConfig over the opaque parameters,
and the scheduler hint produced by getAllocatedDevice — the JSON /
API-object unpacking happens at the kubelet boundary. -/
structure ResourceClaim : Type where
  uid : String
  nspace : String := ""
  cname : String := ""
  config : DeviceConfig
  allocatedDevice : String := ""

/-- The default DeviceConfig parseConfig returns when a claim carries
no recognisable opaque parameters (driver.go lines 190-196). -/
def defaultDeviceConfig : DeviceConfig :=
  { type := .netdev, netdev := some { kind := "dummy", interfaceName := "eth1" } }

/-- The PrepareRequest prepareClaim builds for the handler (driver.go
lines 165-171). -/
def driverReq (rc : ResourceClaim) : PrepareRequest :=
  { claimUID := rc.uid
    nspace := rc.nspace
    claimName := rc.cname
    allocatedDevice := rc.allocatedDevice
    config := rc.config }

/-- prepareClaim from driver.go lines 151-172: resolve the handler by
(type, kind), validate, then prepare; the returned trace records which
handler methods ran. -/
def Driver.prepareClaim (d : Driver) (rc : ResourceClaim) :
    Except String PrepareResult × List CallEvent :=
  let config := rc.config
  let kind := config.getKind
  match d.registry.MustGet config.type kind with
  | .error e => (.error e, [])
  | .ok h =>
    match h.spec.validateFn config with
    | .error e =>
      (.error ("config validation failed: " ++ e), [.validate rc.uid config.type kind])
    | .ok _ =>
      (h.spec.prepareFn (driverReq rc),
       [.validate rc.uid config.type kind, .prepareCall rc.uid config.type kind])

/-- One device entry of a kubeletplugin.PrepareResult. -/
structure KDevice : Type where
  poolName : String
  deviceName : String
  cdiDeviceIDs : List String
deriving DecidableEq, Repr

/-- prepareResultFromAlloc from driver.go lines 241-253: rebuild the
result from cached state (pool name from the poolName metadata key,
default "default"). -/
def prepareResultFromAlloc (alloc : AllocationInfo) (cdiID : String) : List KDevice :=
  [{ poolName := (mapLookup "poolName" alloc.metadata).getD "default"
     deviceName := alloc.deviceName
     cdiDeviceIDs := [cdiID] }]

/-- The per-claim body of PrepareResourceClaims (driver.go lines
59-98): idempotent replay when an AllocationInfo is already tracked,
otherwise dispatch, write the artifacts, and record the allocation. -/
def Driver.prepareOne (d : Driver) (st : DriverState) (rc : ResourceClaim) :
    Except String (List KDevice) × DriverState × List CallEvent :=
  match mapLookup rc.uid st.allocations with
  | some existing =>
    (.ok (prepareResultFromAlloc existing
        (cdiDeviceID d.driverName existing.type existing.deviceName)), st, [])
  | none =>
    match d.prepareClaim rc with
    | (.error e, tr) => (.error e, st, tr)
    | (.ok result, tr) =>
      let r2 := d.createCDISpec rc.uid result st
      let st2 := { r2.2 with allocations := mapInsert rc.uid result.allocation r2.2.allocations }
      (.ok [{ poolName := result.poolName
              deviceName := result.deviceName
              cdiDeviceIDs := [r2.1] }], st2, tr)

/-- PrepareResourceClaims from driver.go lines 50-101: reload persisted
state, then process each claim independently, accumulating the per-UID
result map (as an association list in claim order) and the handler
invocation trace. -/
def Driver.PrepareResourceClaims (d : Driver) (st : DriverState)
    (claims : List ResourceClaim) :
    List (String × Except String (List KDevice)) × DriverState × List CallEvent :=
  let st0 := Driver.restoreAllocations st
  claims.foldl
    (fun acc rc =>
      let r := d.prepareOne acc.2.1 rc
      (acc.1 ++ [(rc.uid, r.1)], r.2.1, acc.2.2 ++ r.2.2))
    ([], st0, [])

/-- unprepareAllocation from driver.go lines 175-185. -/
def Driver.unprepareAllocation (d : Driver) (alloc : AllocationInfo) :
    Except String Unit × List CallEvent :=
  match d.registry.Get alloc.type alloc.kind with
  | none =>
    (.error ("no handler for type=" ++ alloc.type.str ++ " kind=" ++ alloc.kind ++
      " during unprepare"), [])
  | some h =>
    (h.spec.unprepareFn { claimUID := alloc.claimUID, allocation := alloc },
     [.unprepareCall alloc.claimUID alloc.type alloc.kind])

/-- The per-claim body of UnprepareResourceClaims (driver.go lines
114-136): success when no allocation is tracked; otherwise unprepare,
and only on success delete the artifacts and the in-memory entry. -/
def Driver.unprepareOne (d : Driver) (st : DriverState) (uid : String) :
    Except String Unit × DriverState × List CallEvent :=
  match mapLookup uid st.allocations with
  | none => (.ok (), st, [])
  | some alloc =>
    match d.unprepareAllocation alloc with
    | (.error e, tr) => (.error e, st, tr)
    | (.ok _, tr) =>
      let st1 := d.deleteCDISpec uid st
      (.ok (), { st1 with allocations := mapErase uid st1.allocations }, tr)

/-- UnprepareResourceClaims from driver.go lines 106-139: reload
persisted state, then release each claim independently. -/
def Driver.UnprepareResourceClaims (d : Driver) (st : DriverState) (uids : List String) :
    List (String × Except String Unit) × DriverState × List CallEvent :=
  let st0 := Driver.restoreAllocations st
  uids.foldl
    (fun acc uid =>
      let r := d.unprepareOne acc.2.1 uid
      (acc.1 ++ [(uid, r.1)], r.2.1, acc.2.2 ++ r.2.2))
    ([], st0, [])

/-- Interface name derivation of the dummy handler
(pkg/handler/netdev/dummy.go line 34), Go slice panic surfaced. -/
def dummyIfName (claimUID : String) : Option String :=
  (goSlice8 claimUID).map (fun p => "dm" ++ p)

/-- Host-end name derivation of the veth handler
(pkg/handler/netdev/veth.go line 34). -/
def vethHostEndName (claimUID : String) : Option String :=
  (goSlice8 claimUID).map (fun p => "vh" ++ p)

/-- Container-end name derivation of the veth handler
(pkg/handler/netdev/veth.go line 35). -/
def vethContainerEndName (claimUID : String) : Option String :=
  (goSlice8 claimUID).map (fun p => "vc" ++ p)

/-- Interface name derivation of the macvlan handler
(pkg/handler/netdev/macvlan.go line 52). -/
def macvlanIfName (claimUID : String) : Option String :=
  (goSlice8 claimUID).map (fun p => "mv" ++ p)

/-- Interface name derivation of the ipvlan handler (line 53 of its
source). -/
def ipvlanIfName (claimUID : String) : Option String :=
  (goSlice8 claimUID).map (fun p => "iv" ++ p)

/-- Interface name derivation of the ipoib handler
(pkg/handler/rdma/system.go line 384). -/
def ipoibIfName (claimUID : String) : Option String :=
  (goSlice8 claimUID).map (fun p => "ib" ++ p)

/-- A concrete RDMA sub-handler whose Prepare succeeds with device
uverbs0, shaped like UverbsHandler.Prepare's result (system.go lines
184-199). -/
def rdmaStub : SubHandler where
  prepare := fun req => .ok
    { poolName := "default"
      deviceName := "uverbs0"
      cdiEdits := { deviceNodes := ["/dev/infiniband/uverbs0"] }
      allocation :=
        { type := .rdma
          kind := "uverbs"
          claimUID := req.claimUID
          deviceName := "uverbs0"
          metadata := [("uverbsDevice", "uverbs0"), ("ibdev", "mlx5_0")] } }
  unprepare := fun _ => .ok ()

/-- A concrete netdev sub-handler whose Prepare succeeds with interface
dm12345678, shaped like DummyHandler.Prepare's result (dummy.go lines
69-90). -/
def netdevStub : SubHandler where
  prepare := fun req => .ok
    { poolName := "default"
      deviceName := "dm12345678"
      cdiEdits := { netDevices := [("dm12345678", "eth1")] }
      allocation :=
        { type := .netdev
          kind := "dummy"
          claimUID := req.claimUID
          deviceName := "dm12345678"
          metadata := [("createdInterface", "dm12345678"), ("containerName", "eth1")] } }
  unprepare := fun _ => .ok ()

/-- The combo handler wired to the two concrete sub-handlers. -/
def roceStub : RoCEHandler := ⟨rdmaStub, netdevStub⟩

/-- The HandlerSpec view of a combo handler, as the registry stores it
(the counters are observation-only). -/
def roceSpec (h : RoCEHandler) : HandlerSpec where
  validateFn := h.Validate
  prepareFn := fun req => (h.Prepare req).1
  unprepareFn := fun req => (h.Unprepare req).1

/-- The combo handler as registered: type combo, kinds [roce]
(roce.go lines 27-28). -/
def roceRegistered (h : RoCEHandler) : RegisteredHandler :=
  { type := .combo, kinds := ["roce"], spec := roceSpec h }

/-- The ComboConfig of the demo scenario: an RDMA sub-config and a
dummy-interface sub-config. -/
def comboCfg : ComboConfig :=
  { rdma := {}, netdev := { kind := "dummy", interfaceName := "eth1" } }

/-- The combo DeviceConfig of the demo scenario. -/
def comboClaimConfig : DeviceConfig := { type := .combo, combo := some comboCfg }

/-- The demo claim: a UUID-shaped UID whose first 8 characters are
12345678. -/
def claimX : ResourceClaim :=
  { uid := "12345678-9abc-def0-1234-56789abcdef0", config := comboClaimConfig }

/-- A driver with the combo handler registered. -/
def demoDriver : Driver :=
  { driverName := "dra.example.com"
    registry := HandlerRegistry.registerAll [roceRegistered roceStub] }

/-- The empty driver state: nothing allocated, no artifacts on disk. -/
def emptyDriverState : DriverState := ⟨[], [], []⟩

deriving instance DecidableEq for Except

/-- Unfolding mapErase one binding at a time. -/
theorem mapErase_cons {κ α : Type} [DecidableEq κ] (k' a : κ) (b : α) (rest : List (κ × α)) :
    mapErase k' ((a, b) :: rest) =
      if a = k' then mapErase k' rest else (a, b) :: mapErase k' rest := by
  by_cases h : a = k' <;> simp [mapErase, List.filter_cons, h]

/-- Looking up the key just inserted finds the new value. -/
theorem mapLookup_insert_self {κ α : Type} [DecidableEq κ] (k : κ) (v : α)
    (m : List (κ × α)) : mapLookup k (mapInsert k v m) = some v := by
  simp [mapInsert, mapLookup]

/-- Erasing one key leaves lookups of other keys unchanged. -/
theorem mapLookup_erase_ne {κ α : Type} [DecidableEq κ] {k k' : κ} (m : List (κ × α))
    (h : k' ≠ k) : mapLookup k (mapErase k' m) = mapLookup k m := by
  induction m with
  | nil => rfl
  | cons p rest ih =>
    obtain ⟨a, b⟩ := p
    rw [mapErase_cons]
    by_cases hp : a = k'
    · subst hp
      rw [if_pos rfl, ih]
      simp [mapLookup, h]
    · rw [if_neg hp]
      by_cases hak : a = k <;> simp [mapLookup, hak, ih]

/-- Erasing a key makes its lookup none. -/
theorem mapLookup_erase_self {κ α : Type} [DecidableEq κ] (k : κ) (m : List (κ × α)) :
    mapLookup k (mapErase k m) = none := by
  induction m with
  | nil => rfl
  | cons p rest ih =>
    obtain ⟨a, b⟩ := p
    rw [mapErase_cons]
    by_cases hp : a = k
    · rw [if_pos hp]; exact ih
    · rw [if_neg hp]
      simp [mapLookup, hp, ih]

/-- Inserting one key leaves lookups of other keys unchanged. -/
theorem mapLookup_insert_ne {κ α : Type} [DecidableEq κ] {k k' : κ} (v : α)
    (m : List (κ × α)) (h : k' ≠ k) :
    mapLookup k (mapInsert k' v m) = mapLookup k m := by
  simp [mapInsert, mapLookup, h, mapLookup_erase_ne m h]

/-- A lookup succeeds exactly when some binding for the key is present. -/
theorem mapLookup_isSome_iff {κ α : Type} [DecidableEq κ] (k : κ) (m : List (κ × α)) :
    (mapLookup k m).isSome ↔ ∃ v, (k, v) ∈ m := by
  induction m with
  | nil => simp [mapLookup]
  | cons p rest ih =>
    obtain ⟨a, b⟩ := p
    by_cases hp : a = k
    · subst hp
      simp [mapLookup]
    · simp [mapLookup, hp, ih, Ne.symm hp]

/-- Lookup after Register's inner fold over the declared kinds. -/
theorem mapLookup_kindsFold (kinds : List String) (h : RegisteredHandler)
    (inner : List (String × RegisteredHandler)) (k : String) :
    mapLookup k (kinds.foldl (fun m kind => mapInsert kind h m) inner) =
      if k ∈ kinds then some h else mapLookup k inner := by
  induction kinds generalizing inner with
  | nil => simp
  | cons c rest ih =>
    rw [List.foldl_cons, ih]
    by_cases hk : k ∈ rest
    · simp [hk]
    · by_cases hc : k = c
      · subst hc
        simp [hk, mapLookup_insert_self]
      · simp [hk, hc, mapLookup_insert_ne h inner (Ne.symm hc)]

/-- Get after one Register call: the fresh handler for its own pairs,
everything else unchanged. -/
theorem get_register (r : HandlerRegistry) (h : RegisteredHandler)
    (typ : DeviceType) (kind : String) :
    (r.Register h).Get typ kind =
      if typ = h.type ∧ kind ∈ h.kinds then some h else r.Get typ kind := by
  by_cases ht : typ = h.type
  · subst ht
    have h1 : mapLookup h.type (r.Register h).handlers =
        some (h.kinds.foldl (fun m kind => mapInsert kind h m)
          ((mapLookup h.type r.handlers).getD [])) := by
      exact mapLookup_insert_self _ _ _
    have h2 : (r.Register h).Get h.type kind =
        mapLookup kind (h.kinds.foldl (fun m kind => mapInsert kind h m)
          ((mapLookup h.type r.handlers).getD [])) := by
      unfold HandlerRegistry.Get
      rw [h1]
    rw [h2, mapLookup_kindsFold]
    by_cases hk : kind ∈ h.kinds
    · simp [hk]
    · simp only [hk, and_false, if_false]
      unfold HandlerRegistry.Get
      cases hmm : mapLookup h.type r.handlers with
      | some inner => simp
      | none => simp [mapLookup]
  · have h1 : mapLookup typ (r.Register h).handlers = mapLookup typ r.handlers := by
      exact mapLookup_insert_ne _ _ (fun e => ht e.symm)
    unfold HandlerRegistry.Get
    rw [h1]
    simp [ht]

/-- Get over a whole registration sequence folded onto a base registry. -/
theorem get_registerFold (hs : List RegisteredHandler) (r : HandlerRegistry)
    (typ : DeviceType) (kind : String) :
    (hs.foldl HandlerRegistry.Register r).Get typ kind =
      match lastRegistered hs typ kind with
      | some x => some x
      | none => r.Get typ kind := by
  induction hs generalizing r with
  | nil => simp [lastRegistered]
  | cons h rest ih =>
    rw [List.foldl_cons, ih, get_register]
    rw [lastRegistered]
    cases hrest : lastRegistered rest typ kind with
    | some x => simp
    | none =>
      by_cases hc : typ = h.type ∧ kind ∈ h.kinds
      · have hc2 : h.type = typ ∧ kind ∈ h.kinds := ⟨hc.1.symm, hc.2⟩
        rw [if_pos hc, if_pos hc2]
      · have hc2 : ¬(h.type = typ ∧ kind ∈ h.kinds) := fun w => hc ⟨w.1.symm, w.2⟩
        rw [if_neg hc, if_neg hc2]

/-- C9: registry semantics.  For any registration sequence, Get returns
exactly the last handler registered for the queried (type, kind) pair
(lastRegistered is the spec-side reading of those words); a pair never
registered yields none from Get and the NotFound error from MustGet;
and whenever Get finds a handler, MustGet returns that same handler. -/
theorem c9_registry_last_wins (hs : List RegisteredHandler)
    (typ : DeviceType) (kind : String) :
    (HandlerRegistry.registerAll hs).Get typ kind = lastRegistered hs typ kind ∧
    (lastRegistered hs typ kind = none →
      (HandlerRegistry.registerAll hs).Get typ kind = none ∧
      (HandlerRegistry.registerAll hs).MustGet typ kind = .error (notFoundMsg typ kind)) ∧
    (∀ h, (HandlerRegistry.registerAll hs).Get typ kind = some h →
      (HandlerRegistry.registerAll hs).MustGet typ kind = .ok h) := by
  have hget : (HandlerRegistry.registerAll hs).Get typ kind = lastRegistered hs typ kind := by
    rw [HandlerRegistry.registerAll, get_registerFold]
    cases hrest : lastRegistered hs typ kind with
    | some x => simp
    | none => simp [HandlerRegistry.new, HandlerRegistry.Get, mapLookup]
  refine ⟨hget, ?_, ?_⟩
  · intro hnone
    rw [hget, hnone]
    refine ⟨rfl, ?_⟩
    rw [HandlerRegistry.MustGet, hget, hnone]
  · intro h hh
    rw [HandlerRegistry.MustGet, hh]

/-- C9 witness: a concrete two-registration sequence where the second
registration overwrites the first for (netdev, dummy), a never-seen
pair misses, and MustGet agrees with Get. -/
theorem c9_registry_last_wins_witness :
    (HandlerRegistry.registerAll [roceRegistered roceStub]).Get .netdev "macvlan" = none ∧
    (HandlerRegistry.registerAll [roceRegistered roceStub]).MustGet .netdev "macvlan" =
      .error (notFoundMsg .netdev "macvlan") ∧
    (HandlerRegistry.registerAll [roceRegistered roceStub]).MustGet .combo "roce" =
      .ok (roceRegistered roceStub) := by
  have h1 := (c9_registry_last_wins [roceRegistered roceStub] .netdev "macvlan").2.1 rfl
  have h2 := (c9_registry_last_wins [roceRegistered roceStub] .combo "roce").2.2
    (roceRegistered roceStub) (by rfl)
  exact ⟨h1.1, h1.2, h2⟩

/-- C10: every artifact-naming, prepare-persistence and release
operation slices the first 8 characters of the claim UID with no
length check.  On a UID shorter than 8 characters each derivation is
undefined (the Go slice panics, modelled as none) instead of producing
a per-claim error; on a UID of at least 8 characters each derivation
is defined, so the system requires claim UIDs of at least 8
characters. -/
theorem c10_uid_prefix_requires_8_chars (driverName claimUID : String) :
    (claimUID.length < 8 →
      cdiFilePrefixOf driverName claimUID = none ∧
      dummyIfName claimUID = none ∧
      vethHostEndName claimUID = none ∧
      vethContainerEndName claimUID = none ∧
      macvlanIfName claimUID = none ∧
      ipvlanIfName claimUID = none ∧
      ipoibIfName claimUID = none) ∧
    (8 ≤ claimUID.length →
      cdiFilePrefixOf driverName claimUID = some (cdiFilePrefixT driverName claimUID) ∧
      dummyIfName claimUID = some ("dm" ++ claimUID.take 8) ∧
      vethHostEndName claimUID = some ("vh" ++ claimUID.take 8) ∧
      vethContainerEndName claimUID = some ("vc" ++ claimUID.take 8) ∧
      macvlanIfName claimUID = some ("mv" ++ claimUID.take 8) ∧
      ipvlanIfName claimUID = some ("iv" ++ claimUID.take 8) ∧
      ipoibIfName claimUID = some ("ib" ++ claimUID.take 8)) := by
  constructor
  · intro h
    refine ⟨?_, ?_, ?_, ?_, ?_, ?_, ?_⟩ <;>
      simp [cdiFilePrefixOf, dummyIfName, vethHostEndName, vethContainerEndName,
        macvlanIfName, ipvlanIfName, ipoibIfName, goSlice8, h]
  · intro h
    have hnl : ¬claimUID.length < 8 := not_lt.mpr h
    refine ⟨?_, ?_, ?_, ?_, ?_, ?_, ?_⟩ <;>
      simp [cdiFilePrefixOf, cdiFilePrefixT, dummyIfName, vethHostEndName,
        vethContainerEndName, macvlanIfName, ipvlanIfName, ipoibIfName, goSlice8, hnl]

/-- C10 witness: a 3-character UID makes the slice undefined, an
8-character UID makes it defined. -/
theorem c10_uid_prefix_requires_8_chars_witness :
    cdiFilePrefixOf "dra.example.com" "abc" = none ∧
    dummyIfName "12345678" = some ("dm" ++ "12345678".take 8) := by
  refine ⟨((c10_uid_prefix_requires_8_chars "dra.example.com" "abc").1 (by decide)).1, ?_⟩
  exact ((c10_uid_prefix_requires_8_chars "dra.example.com" "12345678").2 (by decide)).2.1

/-- C2: combo prepare ordering and compensation.  The scarce (RDMA)
side runs first: on its failure the commodity (netdev) side is never
invoked and no compensation runs; if the commodity side fails after
the scarce side succeeded, the scarce unprepare is invoked exactly
once and the combo prepare returns the commodity error; routed through
the orchestrator, such a failed combo prepare leaves the driver state
(in-memory map and durable artifacts) exactly as it was, so no combo
AllocationInfo is persisted. -/
theorem c2_combo_prepare_rollback (hh : RoCEHandler) (req : PrepareRequest)
    (cfg : ComboConfig) (hcfg : req.config.combo = some cfg) :
    (∀ e, hh.rdmaHandler.prepare (rdmaSubReq req cfg) = .error e →
      (hh.Prepare req).1 = .error ("rdma prepare failed: " ++ e) ∧
      (hh.Prepare req).2.2.prepares = 0 ∧
      (hh.Prepare req).2.2.unprepares = 0 ∧
      (hh.Prepare req).2.1.unprepares = 0) ∧
    (∀ r1 e, hh.rdmaHandler.prepare (rdmaSubReq req cfg) = .ok r1 →
      hh.netdevHandler.prepare (netdevSubReq req cfg) = .error e →
      (hh.Prepare req).1 = .error ("netdev prepare failed: " ++ e) ∧
      (hh.Prepare req).2.1.unprepares = 1 ∧
      (hh.Prepare req).2.2.prepares = 1) ∧
    (∀ (d : Driver) (st : DriverState) (rc : ResourceClaim) (r1 : PrepareResult) (e : String),
      d.registry.Get .combo "roce" = some (roceRegistered hh) →
      rc.config.type = .combo →
      rc.config.combo = some cfg →
      mapLookup rc.uid st.allocations = none →
      hh.rdmaHandler.prepare (rdmaSubReq (driverReq rc) cfg) = .ok r1 →
      hh.netdevHandler.prepare (netdevSubReq (driverReq rc) cfg) = .error e →
      (d.prepareOne st rc).1 = .error ("netdev prepare failed: " ++ e) ∧
      (d.prepareOne st rc).2.1 = st) := by
  refine ⟨?_, ?_, ?_⟩
  · intro e h1
    simp [RoCEHandler.Prepare, hcfg, SubHandler.callPrepare, h1, CallCounts.zero]
  · intro r1 e h1 h2
    simp [RoCEHandler.Prepare, hcfg, SubHandler.callPrepare, SubHandler.callUnprepare,
      h1, h2, CallCounts.zero]
  · intro d st rc r1 e hget htype hcombo hnone h1 h2
    have hkind : rc.config.getKind = "roce" := by
      rw [DeviceConfig.getKind, htype]
    have hreqc : (driverReq rc).config = rc.config := rfl
    have hprep : hh.Prepare (driverReq rc) =
        (.error ("netdev prepare failed: " ++ e),
         { prepares := 1, unprepares := 1 }, { prepares := 1, unprepares := 0 }) := by
      simp [RoCEHandler.Prepare, hreqc, hcombo, SubHandler.callPrepare,
        SubHandler.callUnprepare, h1, h2, CallCounts.zero]
    have hclaim : d.prepareClaim rc =
        (.error ("netdev prepare failed: " ++ e),
         [.validate rc.uid rc.config.type rc.config.getKind,
          .prepareCall rc.uid rc.config.type rc.config.getKind]) := by
      rw [Driver.prepareClaim]
      simp only [hkind, htype, HandlerRegistry.MustGet, hget, roceRegistered, roceSpec,
        RoCEHandler.Validate, hcombo, hprep]
    simp [Driver.prepareOne, hnone, hclaim]

/-- A netdev sub-handler whose Prepare always fails. -/
def netdevFailStub : SubHandler where
  prepare := fun _ => .error "netdev creation failed"
  unprepare := fun _ => .ok ()

/-- The combo handler whose commodity side fails after the scarce side
succeeded. -/
def roceStubNetFail : RoCEHandler := ⟨rdmaStub, netdevFailStub⟩

/-- The demo combo PrepareRequest. -/
def comboReq : PrepareRequest := { claimUID := claimX.uid, config := comboClaimConfig }

/-- C2 witness: at the concrete failing-commodity combo handler, the
rollback fires exactly once and the commodity error is returned. -/
theorem c2_combo_prepare_rollback_witness :
    (roceStubNetFail.Prepare comboReq).1 =
      .error ("netdev prepare failed: " ++ "netdev creation failed") ∧
    (roceStubNetFail.Prepare comboReq).2.1.unprepares = 1 ∧
    (roceStubNetFail.Prepare comboReq).2.2.prepares = 1 :=
  (c2_combo_prepare_rollback roceStubNetFail comboReq comboCfg rfl).2.1 _ _ rfl rfl

/-- C5: the combo Unprepare invokes both sub-unprepares unconditionally
(each counter is 1 whatever the outcomes), and the aggregate error
lists exactly the failures that occurred — both when both fail, one
when one fails, and success only when both succeed. -/
theorem c5_combo_unprepare_both_sides (hh : RoCEHandler) (req : UnprepareRequest) :
    (hh.Unprepare req).2.1.unprepares = 1 ∧
    (hh.Unprepare req).2.2.unprepares = 1 ∧
    (∀ e1 e2,
      hh.netdevHandler.unprepare ⟨req.claimUID, netdevReconstructedAlloc req⟩ = .error e1 →
      hh.rdmaHandler.unprepare ⟨req.claimUID, rdmaReconstructedAlloc req⟩ = .error e2 →
      (hh.Unprepare req).1 =
        .error (roceUnprepareErrMsg ["netdev unprepare: " ++ e1, "rdma unprepare: " ++ e2])) ∧
    (∀ e1,
      hh.netdevHandler.unprepare ⟨req.claimUID, netdevReconstructedAlloc req⟩ = .error e1 →
      hh.rdmaHandler.unprepare ⟨req.claimUID, rdmaReconstructedAlloc req⟩ = .ok () →
      (hh.Unprepare req).1 = .error (roceUnprepareErrMsg ["netdev unprepare: " ++ e1])) ∧
    (∀ e2,
      hh.netdevHandler.unprepare ⟨req.claimUID, netdevReconstructedAlloc req⟩ = .ok () →
      hh.rdmaHandler.unprepare ⟨req.claimUID, rdmaReconstructedAlloc req⟩ = .error e2 →
      (hh.Unprepare req).1 = .error (roceUnprepareErrMsg ["rdma unprepare: " ++ e2])) ∧
    (hh.netdevHandler.unprepare ⟨req.claimUID, netdevReconstructedAlloc req⟩ = .ok () →
      hh.rdmaHandler.unprepare ⟨req.claimUID, rdmaReconstructedAlloc req⟩ = .ok () →
      (hh.Unprepare req).1 = .ok ()) := by
  refine ⟨?_, ?_, ?_, ?_, ?_, ?_⟩
  · simp [RoCEHandler.Unprepare, SubHandler.callUnprepare, CallCounts.zero]
  · simp [RoCEHandler.Unprepare, SubHandler.callUnprepare, CallCounts.zero]
  · intro e1 e2 h1 h2
    simp [RoCEHandler.Unprepare, SubHandler.callUnprepare, h1, h2]
  · intro e1 h1 h2
    simp [RoCEHandler.Unprepare, SubHandler.callUnprepare, h1, h2]
  · intro e2 h1 h2
    simp [RoCEHandler.Unprepare, SubHandler.callUnprepare, h1, h2]
  · intro h1 h2
    simp [RoCEHandler.Unprepare, SubHandler.callUnprepare, h1, h2]

/-- An RDMA sub-handler whose Unprepare fails. -/
def rdmaUnpFailStub : SubHandler where
  prepare := fun _ => .error "unused"
  unprepare := fun _ => .error "rdma cleanup failed"

/-- A netdev sub-handler whose Unprepare fails. -/
def netdevUnpFailStub : SubHandler where
  prepare := fun _ => .error "unused"
  unprepare := fun _ => .error "netdev cleanup failed"

/-- The combo handler in which both sub-unprepares fail. -/
def roceStubBothUnpFail : RoCEHandler := ⟨rdmaUnpFailStub, netdevUnpFailStub⟩

/-- The demo combo UnprepareRequest. -/
def comboUnpReq : UnprepareRequest :=
  { claimUID := claimX.uid
    allocation :=
      { type := .combo, kind := "roce", claimUID := claimX.uid, deviceName := ""
        metadata := [("rdma_uverbs_device", "uverbs0"), ("rdma_ibdev", "mlx5_0"),
          ("net_created", "dm12345678"), ("net_host_end", "")] } }

/-- C5 witness: with both concrete sub-unprepares failing, both are
still invoked and the aggregate error reports both failures. -/
theorem c5_combo_unprepare_both_sides_witness :
    (roceStubBothUnpFail.Unprepare comboUnpReq).2.1.unprepares = 1 ∧
    (roceStubBothUnpFail.Unprepare comboUnpReq).2.2.unprepares = 1 ∧
    (roceStubBothUnpFail.Unprepare comboUnpReq).1 =
      .error (roceUnprepareErrMsg
        ["netdev unprepare: " ++ "netdev cleanup failed",
         "rdma unprepare: " ++ "rdma cleanup failed"]) :=
  ⟨(c5_combo_unprepare_both_sides roceStubBothUnpFail comboUnpReq).1,
   (c5_combo_unprepare_both_sides roceStubBothUnpFail comboUnpReq).2.1,
   (c5_combo_unprepare_both_sides roceStubBothUnpFail comboUnpReq).2.2.1 _ _ rfl rfl⟩

/-- C6 (demonstrating the divergence): at the §8.7 scenario — RDMA
prepare returns uverbs0, netdev prepare returns dm12345678 — the combo
result's device name is uverbs0 and the combined metadata carries
rdma_device=uverbs0 and net_interface=dm12345678 as the claim states,
but the combined AllocationInfo's device name is "" (the struct
literal in RoCEHandler.Prepare never sets DeviceName), not the scarce
resource's name as the claim states. -/
theorem c6_combo_alloc_missing_device_name :
    ((roceStub.Prepare comboReq).1.map PrepareResult.deviceName = .ok "uverbs0") ∧
    ((roceStub.Prepare comboReq).1.map
      (fun r => metaGet r.allocation.metadata "rdma_device") = .ok "uverbs0") ∧
    ((roceStub.Prepare comboReq).1.map
      (fun r => metaGet r.allocation.metadata "net_interface") = .ok "dm12345678") ∧
    ((roceStub.Prepare comboReq).1.map
      (fun r => r.allocation.deviceName) = .ok "") ∧
    ¬((roceStub.Prepare comboReq).1.map
      (fun r => r.allocation.deviceName) = .ok "uverbs0") := by
  refine ⟨rfl, rfl, rfl, rfl, ?_⟩
  intro h
  simp only [roceStub, RoCEHandler.Prepare] at h
  revert h
  decide

/-- First Prepare batch for the combo claim, from an empty state. -/
def c1First := demoDriver.PrepareResourceClaims emptyDriverState [claimX]

/-- The state after a simulated restart: the in-memory allocations map
is gone, the durable artifacts survive. -/
def c1RestartState : DriverState := ⟨[], c1First.2.1.allocFiles, c1First.2.1.cdiFiles⟩

/-- Second Prepare batch for the same claim after the restart. -/
def c1Second := demoDriver.PrepareResourceClaims c1RestartState [claimX]

/-- C1 (demonstrating the divergence): the first Prepare of the combo
claim returns pool default, device uverbs0, CDI id
dra.example.com/combo=uverbs0; the second call after a restart replays
from the rehydrated AllocationInfo without invoking the handler's
validate or prepare again (its handler trace is empty) — but, because
the combo AllocationInfo was persisted without a device name, it
returns device name "" and CDI id "dra.example.com/combo=", so the two
results are not identical as the claim requires. -/
theorem c1_replay_not_identical :
    c1First.1 =
      [(claimX.uid, .ok [⟨"default", "uverbs0", ["dra.example.com/combo=uverbs0"]⟩])] ∧
    c1Second.1 =
      [(claimX.uid, .ok [⟨"default", "", ["dra.example.com/combo="]⟩])] ∧
    c1Second.2.2 = [] ∧
    c1First.1 ≠ c1Second.1 := by decide

/-- Erasing a key twice is the same as erasing it once. -/
theorem mapErase_idem {κ α : Type} [DecidableEq κ] (k : κ) (m : List (κ × α)) :
    mapErase k (mapErase k m) = mapErase k m := by
  simp [mapErase, List.filter_filter]

/-- Erasing the key just inserted is erasing it from the base map. -/
theorem mapErase_insert_self {κ α : Type} [DecidableEq κ] (k : κ) (v : α)
    (m : List (κ × α)) : mapErase k (mapInsert k v m) = mapErase k m := by
  rw [mapInsert, mapErase_cons, if_pos rfl, mapErase_idem]

/-- The consume loop never turns an absent key into a present one. -/
theorem consumeFold_preserves_none (uids : List String)
    (acc : List PendingMove × List (String × PendingMove)) (uid : String)
    (h : mapLookup uid acc.2 = none) :
    mapLookup uid (uids.foldl consumeStep acc).2 = none := by
  induction uids generalizing acc with
  | nil => exact h
  | cons u rest ih =>
    rw [List.foldl_cons]
    apply ih
    unfold consumeStep
    cases hl : mapLookup u acc.2 with
    | some m =>
      by_cases hu : u = uid
      · subst hu
        simp [mapLookup_erase_self]
      · simp [mapLookup_erase_ne _ hu, h]
    | none => exact h

/-- After the consume loop, every queried UID is absent from pending. -/
theorem consumeFold_lookup_none (uids : List String)
    (acc : List PendingMove × List (String × PendingMove)) (uid : String)
    (h : uid ∈ uids) :
    mapLookup uid (uids.foldl consumeStep acc).2 = none := by
  induction uids generalizing acc with
  | nil => cases h
  | cons u rest ih =>
    rw [List.foldl_cons]
    rcases List.mem_cons.mp h with heq | hmem
    · subst heq
      apply consumeFold_preserves_none
      unfold consumeStep
      cases hl : mapLookup uid acc.2 with
      | some m => simp [mapLookup_erase_self]
      | none => exact hl
    · exact ih _ hmem

/-- The consume loop leaves non-queried UIDs exactly as they were. -/
theorem consumeFold_lookup_not_mem (uids : List String)
    (acc : List PendingMove × List (String × PendingMove)) (uid : String)
    (h : uid ∉ uids) :
    mapLookup uid (uids.foldl consumeStep acc).2 = mapLookup uid acc.2 := by
  induction uids generalizing acc with
  | nil => rfl
  | cons u rest ih =>
    rw [List.foldl_cons]
    have hu : u ≠ uid := fun e => h (e ▸ List.mem_cons_self u rest)
    have hrest : uid ∉ rest := fun e => h (List.mem_cons_of_mem u e)
    rw [ih _ hrest]
    unfold consumeStep
    cases hl : mapLookup u acc.2 with
    | some m => simp [mapLookup_erase_ne _ hu]
    | none => rfl

/-- C8: tracker drain semantics.  addPending then a drain for that
claim yields exactly the one move (with its device) and removes it, so
a second drain yields nothing; claims outside the queried set are
untouched; markActive then removeActiveForPod (in a tracker with no
other active move for that pod) yields exactly that move and removes
it, so a second removeActiveForPod yields nothing. -/
theorem c8_tracker_drain (t : RDMANetnsTracker) (c d p n : String) (uids : List String) :
    ((t.AddPending c d).ConsumePendingForClaims [c]).1 = [{ ibDev := d, claimUID := c }] ∧
    mapLookup c (((t.AddPending c d).ConsumePendingForClaims [c]).2).pending = none ∧
    ((((t.AddPending c d).ConsumePendingForClaims [c]).2).ConsumePendingForClaims [c]).1 = [] ∧
    (∀ u, u ∉ uids →
      mapLookup u ((t.ConsumePendingForClaims uids).2).pending = mapLookup u t.pending) ∧
    (t.GetActiveForPod p = [] →
      ((t.MarkActive c p d n).RemoveActiveForPod p).1 =
        [{ ibDev := d, podUID := p, netnsPath := n }] ∧
      ((((t.MarkActive c p d n).RemoveActiveForPod p).2).RemoveActiveForPod p).1 = []) := by
  refine ⟨?_, ?_, ?_, ?_, ?_⟩
  · simp [RDMANetnsTracker.ConsumePendingForClaims, RDMANetnsTracker.AddPending,
      consumeStep, mapLookup_insert_self]
  · simp [RDMANetnsTracker.ConsumePendingForClaims, RDMANetnsTracker.AddPending,
      consumeStep, mapLookup_insert_self, mapErase_insert_self, mapLookup_erase_self]
  · simp [RDMANetnsTracker.ConsumePendingForClaims, RDMANetnsTracker.AddPending,
      consumeStep, mapLookup_insert_self, mapErase_insert_self, mapLookup_erase_self]
  · intro u hu
    simpa [RDMANetnsTracker.ConsumePendingForClaims] using
      consumeFold_lookup_not_mem uids ([], t.pending) u hu
  · intro hp
    have hfilter : t.active.filter (fun pr => pr.2.podUID == p) = [] := by
      unfold RDMANetnsTracker.GetActiveForPod at hp
      exact List.map_eq_nil_iff.mp hp
    have hmem : ∀ pr ∈ t.active, ¬((pr.2.podUID == p) = true) :=
      List.filter_eq_nil_iff.mp hfilter
    have htail : (mapErase c t.active).filter (fun pr => pr.2.podUID == p) = [] := by
      apply List.filter_eq_nil_iff.mpr
      intro pr hpr
      exact hmem pr (List.mem_filter.mp hpr).1
    constructor
    · unfold RDMANetnsTracker.RemoveActiveForPod RDMANetnsTracker.MarkActive
      simp [mapInsert, List.filter_cons, htail]
    · unfold RDMANetnsTracker.RemoveActiveForPod RDMANetnsTracker.MarkActive
      simp [mapInsert, List.filter_cons, List.filter_filter]

/-- C8 witness: the concrete §8.8 scenario on the empty tracker. -/
theorem c8_tracker_drain_witness :
    ((RDMANetnsTracker.new.AddPending "claim-1" "mlx5_0").ConsumePendingForClaims
      ["claim-1"]).1 = [{ ibDev := "mlx5_0", claimUID := "claim-1" }] ∧
    ((RDMANetnsTracker.new.MarkActive "claim-1" "pod-1" "mlx5_0"
      "/proc/123/ns/net").RemoveActiveForPod "pod-1").1 =
      [{ ibDev := "mlx5_0", podUID := "pod-1", netnsPath := "/proc/123/ns/net" }] :=
  ⟨(c8_tracker_drain RDMANetnsTracker.new "claim-1" "mlx5_0" "pod-1" "/proc/123/ns/net" []).1,
   ((c8_tracker_drain RDMANetnsTracker.new "claim-1" "mlx5_0" "pod-1"
     "/proc/123/ns/net" []).2.2.2.2 rfl).1⟩

/-- The lifecycle phase of one claim in the tracker. -/
inductive ClaimPhase : Type
  | unregistered
  | pending
  | active
deriving DecidableEq, Repr

/-- Which phase a claim UID is in: pending wins, then active, else
unregistered. -/
def RDMANetnsTracker.claimPhase (t : RDMANetnsTracker) (c : String) : ClaimPhase :=
  match mapLookup c t.pending with
  | some _ => .pending
  | none =>
    match mapLookup c t.active with
    | some _ => .active
    | none => .unregistered

/-- The tracker transitions as its call sites drive them, at the
granularity of the documented lifecycle: registration from a handler's
Prepare (the claim is not yet tracked), the sandbox-created drain
(consume, and for a move the drain handed over, the follow-up
markActive), and the removal operations. -/
inductive TrackerStep : RDMANetnsTracker → RDMANetnsTracker → Prop
  | addPending (t : RDMANetnsTracker) (c d : String)
      (h : t.claimPhase c = ClaimPhase.unregistered) :
      TrackerStep t (t.AddPending c d)
  | drain (t : RDMANetnsTracker) (uids : List String) :
      TrackerStep t (t.ConsumePendingForClaims uids).2
  | drainActivate (t : RDMANetnsTracker) (c pod path : String) (m : PendingMove)
      (h : (t.ConsumePendingForClaims [c]).1 = [m]) :
      TrackerStep t (((t.ConsumePendingForClaims [c]).2).MarkActive c pod m.ibDev path)
  | removePending (t : RDMANetnsTracker) (c : String) :
      TrackerStep t (t.RemovePending c)
  | removeActive (t : RDMANetnsTracker) (c : String) :
      TrackerStep t (t.RemoveActive c).2
  | removeActiveForPod (t : RDMANetnsTracker) (p : String) :
      TrackerStep t (t.RemoveActiveForPod p).2

/-- Tracker states reachable from the fresh tracker through lifecycle
steps. -/
inductive TrackerReachable : RDMANetnsTracker → Prop
  | init : TrackerReachable RDMANetnsTracker.new
  | step (t t' : RDMANetnsTracker) :
      TrackerReachable t → TrackerStep t t' → TrackerReachable t'

/-- The documented per-claim transition diagram: stay put, register
(unregistered → pending), activate (pending → active), cancel early
(pending → unregistered), or release (active → unregistered). -/
def allowedEdge (a b : ClaimPhase) : Prop :=
  a = b ∨
  (a = .unregistered ∧ b = .pending) ∨
  (a = .pending ∧ b = .active) ∨
  (a = .pending ∧ b = .unregistered) ∨
  (a = .active ∧ b = .unregistered)

/-- Mutual exclusion of PendingMove and ActiveMove for every claim. -/
def TrackerExcl (t : RDMANetnsTracker) : Prop :=
  ∀ c, mapLookup c t.pending = none ∨ mapLookup c t.active = none

/-- Phases agree when both lookups agree. -/
theorem claimPhase_congr (t t' : RDMANetnsTracker) (c : String)
    (hp : mapLookup c t'.pending = mapLookup c t.pending)
    (ha : mapLookup c t'.active = mapLookup c t.active) :
    t'.claimPhase c = t.claimPhase c := by
  unfold RDMANetnsTracker.claimPhase
  rw [hp, ha]

/-- A lookup that misses still misses after any filtering. -/
theorem mapLookup_filter_none {κ α : Type} [DecidableEq κ] (k : κ)
    (q : κ × α → Bool) (l : List (κ × α)) (h : mapLookup k l = none) :
    mapLookup k (l.filter q) = none := by
  cases hh : mapLookup k (l.filter q) with
  | none => rfl
  | some v =>
    have h1 : (mapLookup k (l.filter q)).isSome := by rw [hh]; rfl
    obtain ⟨w, hw⟩ := (mapLookup_isSome_iff _ _).mp h1
    have h2 : (mapLookup k l).isSome :=
      (mapLookup_isSome_iff _ _).mpr ⟨w, (List.mem_filter.mp hw).1⟩
    rw [h] at h2
    cases h2

/-- A singleton drain that returned a move found it in pending, and
removed exactly that key. -/
theorem consume_singleton_found (t : RDMANetnsTracker) (c : String) (m : PendingMove)
    (h : (t.ConsumePendingForClaims [c]).1 = [m]) :
    mapLookup c t.pending = some m ∧
    ((t.ConsumePendingForClaims [c]).2).pending = mapErase c t.pending := by
  unfold RDMANetnsTracker.ConsumePendingForClaims at h ⊢
  simp only [List.foldl_cons, List.foldl_nil] at h ⊢
  revert h
  unfold consumeStep
  cases hl : mapLookup c t.pending with
  | some x =>
    intro h
    simp only [List.nil_append] at h
    have : x = m := by
      have := h
      simp at this
      exact this
    subst this
    exact ⟨rfl, rfl⟩
  | none =>
    intro h
    simp at h

/-- The phase determined by the two lookups. -/
def phaseOfLookups (po : Option PendingMove) (ao : Option ActiveMove) : ClaimPhase :=
  match po with
  | some _ => .pending
  | none =>
    match ao with
    | some _ => .active
    | none => .unregistered

/-- claimPhase through phaseOfLookups. -/
theorem claimPhase_eq_phaseOf (t : RDMANetnsTracker) (c : String) :
    t.claimPhase c = phaseOfLookups (mapLookup c t.pending) (mapLookup c t.active) := rfl

/-- Each lifecycle step moves every claim along a documented edge. -/
theorem trackerStep_edge {t t' : RDMANetnsTracker} (hs : TrackerStep t t') (c : String) :
    allowedEdge (t.claimPhase c) (t'.claimPhase c) := by
  cases hs with
  | addPending c' d hph =>
    by_cases hc : c' = c
    · subst hc
      have hafter : (t.AddPending c' d).claimPhase c' = .pending := by
        have hx : (t.AddPending c' d).pending =
            mapInsert c' { ibDev := d, claimUID := c' } t.pending := rfl
        rw [claimPhase_eq_phaseOf, hx, mapLookup_insert_self]
        rfl
      exact Or.inr (Or.inl ⟨hph, hafter⟩)
    · refine Or.inl (claimPhase_congr t (t.AddPending c' d) c ?_ rfl).symm
      exact mapLookup_insert_ne _ _ hc
  | drain uids =>
    by_cases hu : c ∈ uids
    · have hnone : mapLookup c ((t.ConsumePendingForClaims uids).2).pending = none := by
        simpa [RDMANetnsTracker.ConsumePendingForClaims] using
          consumeFold_lookup_none uids ([], t.pending) c hu
      have hact : mapLookup c ((t.ConsumePendingForClaims uids).2).active =
          mapLookup c t.active := rfl
      rw [claimPhase_eq_phaseOf t c, claimPhase_eq_phaseOf _ c, hnone, hact]
      cases hp : mapLookup c t.pending with
      | some m =>
        cases ha : mapLookup c t.active with
        | some a => exact Or.inr (Or.inr (Or.inl ⟨rfl, rfl⟩))
        | none => exact Or.inr (Or.inr (Or.inr (Or.inl ⟨rfl, rfl⟩)))
      | none => exact Or.inl rfl
    · have hp : mapLookup c ((t.ConsumePendingForClaims uids).2).pending =
          mapLookup c t.pending := by
        simpa [RDMANetnsTracker.ConsumePendingForClaims] using
          consumeFold_lookup_not_mem uids ([], t.pending) c hu
      exact Or.inl (claimPhase_congr t ((t.ConsumePendingForClaims uids).2) c hp rfl).symm
  | drainActivate c' pod path m h =>
    obtain ⟨hfound, hpend⟩ := consume_singleton_found t c' m h
    by_cases hc : c' = c
    · subst hc
      have hbefore : t.claimPhase c' = .pending := by
        rw [claimPhase_eq_phaseOf, hfound]
        rfl
      have h1 : mapLookup c'
          ((((t.ConsumePendingForClaims [c']).2)).MarkActive c' pod m.ibDev path).pending =
          none := by
        have hx : ((((t.ConsumePendingForClaims [c']).2)).MarkActive c' pod
            m.ibDev path).pending = mapErase c' t.pending := hpend
        rw [hx]
        exact mapLookup_erase_self _ _
      have h2 : mapLookup c'
          ((((t.ConsumePendingForClaims [c']).2)).MarkActive c' pod m.ibDev path).active =
          some { ibDev := m.ibDev, podUID := pod, netnsPath := path } :=
        mapLookup_insert_self _ _ _
      have hafter :
          ((((t.ConsumePendingForClaims [c']).2)).MarkActive c' pod m.ibDev path).claimPhase
            c' = .active := by
        rw [claimPhase_eq_phaseOf, h1, h2]
        rfl
      exact Or.inr (Or.inr (Or.inl ⟨hbefore, hafter⟩))
    · have h1 : mapLookup c
          ((((t.ConsumePendingForClaims [c']).2)).MarkActive c' pod m.ibDev path).pending =
          mapLookup c t.pending := by
        have hx : ((((t.ConsumePendingForClaims [c']).2)).MarkActive c' pod
            m.ibDev path).pending = mapErase c' t.pending := hpend
        rw [hx]
        exact mapLookup_erase_ne _ hc
      have h2 : mapLookup c
          ((((t.ConsumePendingForClaims [c']).2)).MarkActive c' pod m.ibDev path).active =
          mapLookup c t.active := mapLookup_insert_ne _ _ hc
      exact Or.inl (claimPhase_congr t _ c h1 h2).symm
  | removePending c' =>
    by_cases hc : c' = c
    · subst hc
      have hnone : mapLookup c' (t.RemovePending c').pending = none :=
        mapLookup_erase_self _ _
      have hact : mapLookup c' (t.RemovePending c').active = mapLookup c' t.active := rfl
      rw [claimPhase_eq_phaseOf t c', claimPhase_eq_phaseOf _ c', hnone, hact]
      cases hp : mapLookup c' t.pending with
      | some m =>
        cases ha : mapLookup c' t.active with
        | some a => exact Or.inr (Or.inr (Or.inl ⟨rfl, rfl⟩))
        | none => exact Or.inr (Or.inr (Or.inr (Or.inl ⟨rfl, rfl⟩)))
      | none => exact Or.inl rfl
    · exact Or.inl (claimPhase_congr t (t.RemovePending c') c
        (mapLookup_erase_ne t.pending hc) rfl).symm
  | removeActive c' =>
    by_cases hc : c' = c
    · subst hc
      have hnone : mapLookup c' ((t.RemoveActive c').2).active = none :=
        mapLookup_erase_self _ _
      have hpd : mapLookup c' ((t.RemoveActive c').2).pending = mapLookup c' t.pending := rfl
      rw [claimPhase_eq_phaseOf t c', claimPhase_eq_phaseOf _ c', hnone, hpd]
      cases hp : mapLookup c' t.pending with
      | some m => exact Or.inl rfl
      | none =>
        cases ha : mapLookup c' t.active with
        | some a => exact Or.inr (Or.inr (Or.inr (Or.inr ⟨rfl, rfl⟩)))
        | none => exact Or.inl rfl
    · exact Or.inl (claimPhase_congr t ((t.RemoveActive c').2) c rfl
        (mapLookup_erase_ne t.active hc)).symm
  | removeActiveForPod p =>
    have hpend : mapLookup c ((t.RemoveActiveForPod p).2).pending =
        mapLookup c t.pending := rfl
    rw [claimPhase_eq_phaseOf t c, claimPhase_eq_phaseOf _ c, hpend]
    cases hp : mapLookup c t.pending with
    | some m => exact Or.inl rfl
    | none =>
      cases haf : mapLookup c ((t.RemoveActiveForPod p).2).active with
      | some a =>
        cases ha : mapLookup c t.active with
        | some b => exact Or.inl rfl
        | none =>
          have hcon : mapLookup c ((t.RemoveActiveForPod p).2).active = none :=
            mapLookup_filter_none _ _ _ ha
          rw [haf] at hcon
          cases hcon
      | none =>
        cases ha : mapLookup c t.active with
        | some b => exact Or.inr (Or.inr (Or.inr (Or.inr ⟨rfl, rfl⟩)))
        | none => exact Or.inl rfl

/-- A claim in the unregistered phase is in neither map. -/
theorem phase_unregistered_both_none (t : RDMANetnsTracker) (c : String)
    (h : t.claimPhase c = .unregistered) :
    mapLookup c t.pending = none ∧ mapLookup c t.active = none := by
  rw [claimPhase_eq_phaseOf] at h
  cases hp : mapLookup c t.pending with
  | some m => rw [hp] at h; cases h
  | none =>
    cases ha : mapLookup c t.active with
    | some a => rw [hp, ha] at h; cases h
    | none => exact ⟨rfl, rfl⟩

/-- Every lifecycle step preserves pending/active mutual exclusion. -/
theorem trackerStep_excl {t t' : RDMANetnsTracker} (hs : TrackerStep t t')
    (hx : TrackerExcl t) : TrackerExcl t' := by
  cases hs with
  | addPending c' d hph =>
    intro c
    by_cases hc : c' = c
    · subst hc
      right
      have := (phase_unregistered_both_none t c' hph).2
      exact this
    · have h1 : mapLookup c (t.AddPending c' d).pending = mapLookup c t.pending :=
        mapLookup_insert_ne _ _ hc
      have h2 : mapLookup c (t.AddPending c' d).active = mapLookup c t.active := rfl
      rw [h1, h2]
      exact hx c
  | drain uids =>
    intro c
    have h2 : mapLookup c ((t.ConsumePendingForClaims uids).2).active =
        mapLookup c t.active := rfl
    rcases hx c with hp | ha
    · left
      simpa [RDMANetnsTracker.ConsumePendingForClaims] using
        consumeFold_preserves_none uids ([], t.pending) c hp
    · right
      rw [h2]
      exact ha
  | drainActivate c' pod path m h =>
    obtain ⟨hfound, hpend⟩ := consume_singleton_found t c' m h
    intro c
    by_cases hc : c' = c
    · subst hc
      left
      have hx1 : ((((t.ConsumePendingForClaims [c']).2)).MarkActive c' pod
          m.ibDev path).pending = mapErase c' t.pending := hpend
      rw [hx1]
      exact mapLookup_erase_self _ _
    · have h1 : mapLookup c ((((t.ConsumePendingForClaims [c']).2)).MarkActive c' pod
          m.ibDev path).pending = mapLookup c t.pending := by
        have hx1 : ((((t.ConsumePendingForClaims [c']).2)).MarkActive c' pod
            m.ibDev path).pending = mapErase c' t.pending := hpend
        rw [hx1]
        exact mapLookup_erase_ne _ hc
      have h2 : mapLookup c ((((t.ConsumePendingForClaims [c']).2)).MarkActive c' pod
          m.ibDev path).active = mapLookup c t.active := mapLookup_insert_ne _ _ hc
      rw [h1, h2]
      exact hx c
  | removePending c' =>
    intro c
    by_cases hc : c' = c
    · subst hc
      left
      exact mapLookup_erase_self _ _
    · have h1 : mapLookup c (t.RemovePending c').pending = mapLookup c t.pending :=
        mapLookup_erase_ne _ hc
      have h2 : mapLookup c (t.RemovePending c').active = mapLookup c t.active := rfl
      rw [h1, h2]
      exact hx c
  | removeActive c' =>
    intro c
    by_cases hc : c' = c
    · subst hc
      right
      exact mapLookup_erase_self _ _
    · have h1 : mapLookup c ((t.RemoveActive c').2).pending = mapLookup c t.pending := rfl
      have h2 : mapLookup c ((t.RemoveActive c').2).active = mapLookup c t.active :=
        mapLookup_erase_ne _ hc
      rw [h1, h2]
      exact hx c
  | removeActiveForPod p =>
    intro c
    have h1 : mapLookup c ((t.RemoveActiveForPod p).2).pending = mapLookup c t.pending := rfl
    rcases hx c with hp | ha
    · left
      rw [h1]
      exact hp
    · right
      exact mapLookup_filter_none _ _ _ ha

/-- Exclusion holds in every reachable state. -/
theorem trackerExcl_of_reachable {t : RDMANetnsTracker} (hr : TrackerReachable t) :
    TrackerExcl t := by
  induction hr with
  | init => intro c; left; rfl
  | step t t' _ hs ih => exact trackerStep_excl hs ih

/-- C7: tracker state invariant.  In every state reachable through the
documented lifecycle, no claim has both a PendingMove and an
ActiveMove, and every lifecycle step moves each claim along the
documented diagram: unregistered → pending → active → unregistered,
with the pending → unregistered shortcut (staying put is allowed). -/
theorem c7_tracker_invariant (t t' : RDMANetnsTracker)
    (hr : TrackerReachable t) (hs : TrackerStep t t') :
    (∀ c, mapLookup c t.pending = none ∨ mapLookup c t.active = none) ∧
    (∀ c, allowedEdge (t.claimPhase c) (t'.claimPhase c)) :=
  ⟨trackerExcl_of_reachable hr, fun c => trackerStep_edge hs c⟩

/-- C7 witness: the empty tracker is reachable, registering claim-1 is
a lifecycle step, and the theorem instantiates there. -/
theorem c7_tracker_invariant_witness :
    (mapLookup "claim-1" RDMANetnsTracker.new.pending = none ∨
      mapLookup "claim-1" RDMANetnsTracker.new.active = none) ∧
    allowedEdge (RDMANetnsTracker.new.claimPhase "claim-1")
      ((RDMANetnsTracker.new.AddPending "claim-1" "mlx5_0").claimPhase "claim-1") :=
  ⟨(c7_tracker_invariant RDMANetnsTracker.new
      (RDMANetnsTracker.new.AddPending "claim-1" "mlx5_0") TrackerReachable.init
      (TrackerStep.addPending RDMANetnsTracker.new "claim-1" "mlx5_0" rfl)).1 "claim-1",
   (c7_tracker_invariant RDMANetnsTracker.new
      (RDMANetnsTracker.new.AddPending "claim-1" "mlx5_0") TrackerReachable.init
      (TrackerStep.addPending RDMANetnsTracker.new "claim-1" "mlx5_0" rfl)).2 "claim-1"⟩

/-- The claim UID of the C3 scenario. -/
def c3Uid : String := "aaaabbbb-cccc-dddd-eeee-ffff00001111"

/-- A kernel environment in which the pod namespace opens fine but the
RDMA link cannot be resolved. -/
def c3Env : NetEnv where
  getNSFromPath := fun _ => .ok 7
  rdmaLinkByName := fun _ => .error "link not found"
  rdmaLinkSetNsFd := fun _ _ => .ok ()

/-- A tracker holding one pending move for the C3 claim. -/
def c3Tracker : RDMANetnsTracker := RDMANetnsTracker.new.AddPending c3Uid "mlx5_0"

/-- The sandbox-created event for the pod owning the C3 claim. -/
def c3Pod : PodSandbox :=
  { podUID := "pod-1", claimUIDs := [c3Uid], netnsPath := "/proc/123/ns/net" }

/-- C3 counterexample: with the sandbox namespace available but the
RDMA link resolution failing, the drained move is NOT re-registered as
pending (and is not active either) — it is dropped from the tracker,
while the event handler still reports success.  The claim asserts the
move would be re-registered as pending. -/
theorem c3_failed_move_not_reregistered :
    mapLookup c3Uid ((RunPodSandbox c3Env c3Tracker c3Pod).2).pending = none ∧
    mapLookup c3Uid ((RunPodSandbox c3Env c3Tracker c3Pod).2).active = none ∧
    (RunPodSandbox c3Env c3Tracker c3Pod).1 = .ok () := by decide

/-- The per-move loop never touches the pending map. -/
theorem runMoveStepFold_pending (env : NetEnv) (pod : PodSandbox) (podNS : Nat)
    (moves : List PendingMove) (tr : RDMANetnsTracker) :
    (moves.foldl (runMoveStep env pod podNS) tr).pending = tr.pending := by
  induction moves generalizing tr with
  | nil => rfl
  | cons m rest ih =>
    rw [List.foldl_cons, ih]
    unfold runMoveStep
    cases hbn : env.rdmaLinkByName m.ibDev with
    | error e => rfl
    | ok link =>
      cases hsn : env.rdmaLinkSetNsFd link podNS with
      | error e => simp [hsn]
      | ok u => simp [hsn, RDMANetnsTracker.MarkActive]

/-- With a usable sandbox namespace, RunPodSandbox is exactly: drain,
then run the per-move loop. -/
theorem runPodSandbox_ok_path (env : NetEnv) (t : RDMANetnsTracker) (pod : PodSandbox)
    (podNS : Nat) (hpath : pod.netnsPath ≠ "")
    (hns : env.getNSFromPath pod.netnsPath = .ok podNS) :
    RunPodSandbox env t pod =
      (.ok (), ((t.ConsumePendingForClaims pod.claimUIDs).1).foldl
        (runMoveStep env pod podNS) (t.ConsumePendingForClaims pod.claimUIDs).2) := by
  unfold RunPodSandbox
  by_cases h0 : pod.claimUIDs.isEmpty
  · rw [if_pos h0]
    have h0x : pod.claimUIDs = [] := List.isEmpty_iff.mp h0
    rw [h0x]
    simp [RDMANetnsTracker.ConsumePendingForClaims]
  · rw [if_neg h0]
    by_cases h1 : (t.ConsumePendingForClaims pod.claimUIDs).1.isEmpty
    · have h1x : (t.ConsumePendingForClaims pod.claimUIDs).1 = [] := List.isEmpty_iff.mp h1
      simp [h1, h1x]
    · simp [h1, hpath, hns]

/-- Without a usable sandbox namespace (no path, or the open failed),
the final tracker re-registers every drained move as pending. -/
theorem runPodSandbox_ns_failure (env : NetEnv) (t : RDMANetnsTracker) (pod : PodSandbox)
    (hbad : pod.netnsPath = "" ∨ ∃ e, env.getNSFromPath pod.netnsPath = .error e) :
    (RunPodSandbox env t pod).2 =
      ((t.ConsumePendingForClaims pod.claimUIDs).1).foldl
        (fun tr m => tr.AddPending m.claimUID m.ibDev)
        (t.ConsumePendingForClaims pod.claimUIDs).2 := by
  unfold RunPodSandbox
  by_cases h0 : pod.claimUIDs.isEmpty
  · rw [if_pos h0]
    have h0x : pod.claimUIDs = [] := List.isEmpty_iff.mp h0
    rw [h0x]
    simp [RDMANetnsTracker.ConsumePendingForClaims]
  · rw [if_neg h0]
    by_cases h1 : (t.ConsumePendingForClaims pod.claimUIDs).1.isEmpty
    · have h1x : (t.ConsumePendingForClaims pod.claimUIDs).1 = [] := List.isEmpty_iff.mp h1
      simp [h1, h1x]
    · by_cases hp : pod.netnsPath = ""
      · simp [h1, hp]
      · obtain he := hbad.resolve_left hp
        obtain ⟨e, he⟩ := he
        simp [h1, hp, he]

/-- C3 as amended: on a sandbox-created event, failure to obtain the
sandbox namespace handle (missing path or failed open) re-registers
ALL drained moves as pending; but a per-move failure — the kernel
handle cannot be resolved, or the reassignment into the namespace
fails — only logs and drops that move (the tracker is left unchanged
by that iteration, and the drain has already removed the move from
pending), while processing continues with the remaining moves: a later
move whose calls succeed is still marked active, and the handler
reports success. -/
theorem c3_relocation_failure_paths (env : NetEnv) (t : RDMANetnsTracker)
    (pod : PodSandbox) (podNS : Nat) :
    (pod.netnsPath ≠ "" → env.getNSFromPath pod.netnsPath = .ok podNS →
      RunPodSandbox env t pod =
        (.ok (), ((t.ConsumePendingForClaims pod.claimUIDs).1).foldl
          (runMoveStep env pod podNS) (t.ConsumePendingForClaims pod.claimUIDs).2) ∧
      (∀ uid, uid ∈ pod.claimUIDs →
        mapLookup uid ((RunPodSandbox env t pod).2).pending = none)) ∧
    (∀ tr m e, env.rdmaLinkByName m.ibDev = .error e →
      runMoveStep env pod podNS tr m = tr) ∧
    (∀ tr m link e, env.rdmaLinkByName m.ibDev = .ok link →
      env.rdmaLinkSetNsFd link podNS = .error e →
      runMoveStep env pod podNS tr m = tr) ∧
    (∀ tr m link, env.rdmaLinkByName m.ibDev = .ok link →
      env.rdmaLinkSetNsFd link podNS = .ok () →
      runMoveStep env pod podNS tr m =
        tr.MarkActive m.claimUID pod.podUID m.ibDev pod.netnsPath) ∧
    ((pod.netnsPath = "" ∨ ∃ e, env.getNSFromPath pod.netnsPath = .error e) →
      (RunPodSandbox env t pod).2 =
        ((t.ConsumePendingForClaims pod.claimUIDs).1).foldl
          (fun tr m => tr.AddPending m.claimUID m.ibDev)
          (t.ConsumePendingForClaims pod.claimUIDs).2) := by
  refine ⟨?_, ?_, ?_, ?_, runPodSandbox_ns_failure env t pod⟩
  · intro hpath hns
    have heq := runPodSandbox_ok_path env t pod podNS hpath hns
    refine ⟨heq, ?_⟩
    intro uid hu
    rw [heq]
    show mapLookup uid (((t.ConsumePendingForClaims pod.claimUIDs).1).foldl
      (runMoveStep env pod podNS) (t.ConsumePendingForClaims pod.claimUIDs).2).pending = none
    rw [runMoveStepFold_pending]
    simpa [RDMANetnsTracker.ConsumePendingForClaims] using
      consumeFold_lookup_none pod.claimUIDs ([], t.pending) uid hu
  · intro tr m e hbn
    unfold runMoveStep
    rw [hbn]
  · intro tr m link e hbn hsn
    unfold runMoveStep
    rw [hbn]
    simp [hsn]
  · intro tr m link hbn hsn
    unfold runMoveStep
    rw [hbn]
    simp [hsn]

/-- C3 witness: in the concrete C3 scenario (namespace handle fine,
link resolution failing for the only drained move), the event runs the
per-move loop and the claim is gone from pending. -/
theorem c3_relocation_failure_paths_witness :
    RunPodSandbox c3Env c3Tracker c3Pod =
      (.ok (), ((c3Tracker.ConsumePendingForClaims c3Pod.claimUIDs).1).foldl
        (runMoveStep c3Env c3Pod 7) (c3Tracker.ConsumePendingForClaims c3Pod.claimUIDs).2) ∧
    mapLookup c3Uid ((RunPodSandbox c3Env c3Tracker c3Pod).2).pending = none :=
  ⟨((c3_relocation_failure_paths c3Env c3Tracker c3Pod 7).1 (by decide) rfl).1,
   ((c3_relocation_failure_paths c3Env c3Tracker c3Pod 7).1 (by decide) rfl).2 c3Uid
     (by decide)⟩

/-- The release batch emits exactly one result entry per claim, keyed
by that claim's UID, whatever the outcomes. -/
theorem unprepareBatch_keys (d : Driver) (st : DriverState) (uids : List String) :
    ((d.UnprepareResourceClaims st uids).1).map Prod.fst = uids := by
  unfold Driver.UnprepareResourceClaims
  have hgen : ∀ (us : List String) (acc : List (String × Except String Unit) ×
      DriverState × List CallEvent),
      ((us.foldl (fun acc uid =>
        let r := d.unprepareOne acc.2.1 uid
        (acc.1 ++ [(uid, r.1)], r.2.1, acc.2.2 ++ r.2.2)) acc).1).map Prod.fst =
      (acc.1.map Prod.fst) ++ us := by
    intro us
    induction us with
    | nil => intro acc; simp
    | cons u rest ih =>
      intro acc
      rw [List.foldl_cons]
      rw [ih]
      simp
  rw [hgen]
  simp

/-- C4: release behaviour per claim.  After rehydration: an absent
AllocationInfo yields success with nothing changed; a present one has
its handler's unprepare invoked — on failure the error is reported for
the claim and the in-memory entry and durable artifacts all survive;
only on success are the CDI file, the sidecar file and the in-memory
entry deleted, leaving every other claim's entry untouched. -/
theorem c4_release_per_claim (d : Driver) (st : DriverState) (uid : String) :
    (mapLookup uid (Driver.restoreAllocations st).allocations = none →
      d.UnprepareResourceClaims st [uid] =
        ([(uid, .ok ())], Driver.restoreAllocations st, [])) ∧
    (∀ alloc h e,
      mapLookup uid (Driver.restoreAllocations st).allocations = some alloc →
      d.registry.Get alloc.type alloc.kind = some h →
      h.spec.unprepareFn { claimUID := alloc.claimUID, allocation := alloc } = .error e →
      d.UnprepareResourceClaims st [uid] =
        ([(uid, .error e)], Driver.restoreAllocations st,
         [.unprepareCall alloc.claimUID alloc.type alloc.kind])) ∧
    (∀ alloc h,
      mapLookup uid (Driver.restoreAllocations st).allocations = some alloc →
      d.registry.Get alloc.type alloc.kind = some h →
      h.spec.unprepareFn { claimUID := alloc.claimUID, allocation := alloc } = .ok () →
      (d.UnprepareResourceClaims st [uid]).1 = [(uid, .ok ())] ∧
      mapLookup uid ((d.UnprepareResourceClaims st [uid]).2.1).allocations = none ∧
      mapLookup (cdiFilePrefixT d.driverName uid)
        ((d.UnprepareResourceClaims st [uid]).2.1).allocFiles = none ∧
      cdiFilePrefixT d.driverName uid ∉ ((d.UnprepareResourceClaims st [uid]).2.1).cdiFiles ∧
      (∀ u, u ≠ uid →
        mapLookup u ((d.UnprepareResourceClaims st [uid]).2.1).allocations =
          mapLookup u (Driver.restoreAllocations st).allocations)) ∧
    (∀ uids, ((d.UnprepareResourceClaims st uids).1).map Prod.fst = uids) := by
  refine ⟨?_, ?_, ?_, fun uids => unprepareBatch_keys d st uids⟩
  · intro hnone
    simp [Driver.UnprepareResourceClaims, Driver.unprepareOne, hnone]
  · intro alloc h e hsome hget hunp
    simp [Driver.UnprepareResourceClaims, Driver.unprepareOne, hsome,
      Driver.unprepareAllocation, hget, hunp]
  · intro alloc h hsome hget hunp
    have hbatch : d.UnprepareResourceClaims st [uid] =
        ([(uid, .ok ())],
         { allocations :=
             mapErase uid (Driver.restoreAllocations st).allocations
           allocFiles :=
             mapErase (cdiFilePrefixT d.driverName uid)
               (Driver.restoreAllocations st).allocFiles
           cdiFiles := (Driver.restoreAllocations st).cdiFiles.filter
             (fun q => decide (q ≠ cdiFilePrefixT d.driverName uid)) },
         [.unprepareCall alloc.claimUID alloc.type alloc.kind]) := by
      simp [Driver.UnprepareResourceClaims, Driver.unprepareOne, hsome,
        Driver.unprepareAllocation, hget, hunp, Driver.deleteCDISpec,
        Driver.removeAllocationState]
    rw [hbatch]
    refine ⟨rfl, mapLookup_erase_self _ _, mapLookup_erase_self _ _, ?_, ?_⟩
    · intro hmem
      have := (List.mem_filter.mp hmem).2
      simp at this
    · intro u hu
      exact mapLookup_erase_ne _ (fun e2 => hu e2.symm)

/-- C4 witness: releasing a never-allocated claim against the empty
state succeeds with no error and changes nothing. -/
theorem c4_release_per_claim_witness :
    demoDriver.UnprepareResourceClaims emptyDriverState [c3Uid] =
      ([(c3Uid, .ok ())], Driver.restoreAllocations emptyDriverState, []) :=
  (c4_release_per_claim demoDriver emptyDriverState c3Uid).1 rfl
